import Mathlib

/-!
Verification development for the `mcp-emc-regulations` server
(`src/mcp_emc_regulations/server.py`).

Embedding conventions:
* Python floats (frequencies, limit values) are modelled as `Rat`.
  Numeric display uses exact rational rendering via `toString`; only the
  digits differ from Python float `repr`, never which blocks appear.
* Python dicts with optional keys become structures with `Option` fields;
  `d.get(k, default)` becomes `Option.getD`, and an unconditional `d[k]`
  on a possibly-missing key becomes a monadic bind in `Option`, so a raised
  `KeyError` is modelled as the result `none`.
* The module-level tables (`PART15_LIMITS`, `CISPR_LIMITS`, ...) become an
  explicit `Store` parameter threaded through every operation.
* The outbound HTTP call of `ecfr_query` is modelled by an explicit
  `HttpOutcome` argument: `ok status dump` is a returned response whose
  parsed-and-pretty-printed body is `dump` (i.e. `json.dumps(resp.json(),
  indent=2)`), and `exn msg` is any exception raised inside the `try`
  block (timeout, connection error, JSON decode failure).
* ASCII apostrophes occurring inside display strings of the source are
  rendered with the typographic quote U+2019.
-/

/-- Python `'='*n`-style string repetition. -/
def repeatChar (c : Char) (n : Nat) : String :=
  String.mk (List.replicate n c)

/-- Python `s[:n]` slicing on strings. -/
def pySlice (s : String) (n : Nat) : String :=
  String.mk (s.toList.take n)

/-- Substring test, modelling Python's `in` on strings. -/
def strContains (s pat : String) : Bool :=
  decide (pat.toList <:+: s.toList)

/-- Python `str.lower()` (character-wise, ASCII case mapping). -/
def pyLower (s : String) : String :=
  String.mk (s.toList.map Char.toLower)

/-- Python `str.upper()` (character-wise, ASCII case mapping). -/
def pyUpper (s : String) : String :=
  String.mk (s.toList.map Char.toUpper)

/-- Rendering of `d.get(key, '?')` interpolation for a numeric field. -/
def optStr (o : Option Rat) : String :=
  match o with
  | some v => toString v
  | none => "?"

/-- Left padding with spaces, modelling Python format specs like `:>10`. -/
def padLeft (s : String) (n : Nat) : String :=
  repeatChar ' ' (n - s.length) ++ s

/-- Right padding with spaces, modelling Python format specs like `:<10`. -/
def padRight (s : String) (n : Nat) : String :=
  s ++ repeatChar ' ' (n - s.length)

/-- Zero-left-pad a digit string to a given width. -/
def padZeros (s : String) (n : Nat) : String :=
  repeatChar '0' (n - s.length) ++ s

/-- Fixed-point rendering of a rational, modelling Python `:.precf` display
(rounding to nearest, ties approximated upward). -/
def fmtFixed (q : Rat) (prec : Nat) : String :=
  let n : Int := ⌊q * (10 : Rat) ^ prec + 1 / 2⌋
  let m : Nat := n.natAbs
  let ip : Nat := m / 10 ^ prec
  let fp : Nat := m % 10 ^ prec
  (if n < 0 then "-" else "") ++ toString ip ++
    (if prec = 0 then "" else "." ++ padZeros (toString fp) prec)

/-- Python `str.title()` restricted to space-separated words: first letter
upper-cased, rest lower-cased. -/
def strTitle (s : String) : String :=
  String.intercalate (" ") ((s.splitOn (" ")).map (fun w =>
    match w.toList with
    | [] => ""
    | c :: rest => String.mk (c.toUpper :: rest.map Char.toLower)))

/-- One frequency-range limit record (a JSON object of a `limits` array).
`freq_min_mhz`/`freq_max_mhz` are always present in the data files (the
matcher indexes them unconditionally); all other keys are optional. -/
structure LimitRec where
  freq_min_mhz : Rat
  freq_max_mhz : Rat
  limit_dbuv_m : Option Rat := none
  limit_uv_m : Option Rat := none
  limit_dbuv : Option Rat := none
  limit_dbuv_qp : Option Rat := none
  limit_dbuv_avg : Option Rat := none
  distance_m : Option Rat := none
  detector : Option String := none
  notes : Option String := none
deriving DecidableEq, Repr

/-- A restricted-band record of `restricted_bands.json`. -/
structure RestrictedBand where
  freq_min_mhz : Rat
  freq_max_mhz : Rat
  service : String
deriving DecidableEq, Repr

/-- An ISM band record of `part18_limits.json` (`ism_bands.bands`). -/
structure IsmBand where
  center_mhz : Rat
  range_mhz : Option (Rat × Rat) := none
  notes : Option String := none
deriving DecidableEq, Repr

/-- A per-class block of Part 15 data (`class_a`/`class_b`). -/
structure ClassLimits where
  description : Option String := none
  limits : List LimitRec := []
deriving DecidableEq, Repr

/-- Sub-object `section_15_109` of `part15_limits.json`. -/
structure Sec109 where
  title : Option String := none
  class_a : ClassLimits := {}
  class_b : ClassLimits := {}
deriving DecidableEq, Repr

/-- Sub-object `section_15_207` of `part15_limits.json`. -/
structure Sec207 where
  title : Option String := none
  class_a : ClassLimits := {}
  class_b : ClassLimits := {}
deriving DecidableEq, Repr

/-- Sub-object `section_15_209` of `part15_limits.json`. -/
structure Sec209 where
  title : Option String := none
  limits : List LimitRec := []
deriving DecidableEq, Repr

/-- Table `part15_limits.json` (missing sections load as empty). -/
structure Part15Store where
  section_15_109 : Sec109 := {}
  section_15_207 : Sec207 := {}
  section_15_209 : Sec209 := {}
deriving DecidableEq, Repr

/-- A `consumer_ism`/`industrial_ism` block of `section_18_305`. -/
structure EqData where
  emissions_outside_ism : List LimitRec := []
deriving DecidableEq, Repr

/-- Sub-object `section_18_305` of `part18_limits.json`. -/
structure Sec18305 where
  consumer_ism : EqData := {}
  industrial_ism : EqData := {}
deriving DecidableEq, Repr

/-- Table `part18_limits.json`: `ism_bands.bands` plus `section_18_305`. -/
structure Part18Store where
  ism_bands : List IsmBand := []
  section_18_305 : Sec18305 := {}
deriving DecidableEq, Repr

/-- The `above_1ghz` overflow sub-table of a CISPR radiated block. -/
structure Above1G where
  limits : List LimitRec := []
  measurement_distance_m : Option Rat := none
deriving DecidableEq, Repr

/-- A `radiated_emissions` block of a CISPR class. -/
structure RadData where
  limits : List LimitRec := []
  measurement_distance_m : Option Rat := none
  above_1ghz : Option Above1G := none
deriving DecidableEq, Repr

/-- A `conducted_emissions` block of a CISPR class. -/
structure CondData where
  limits : List LimitRec := []
  port : Option String := none
deriving DecidableEq, Repr

/-- A CISPR per-class data block (missing inner keys load as empty). -/
structure ClassData where
  radiated_emissions : RadData := {}
  conducted_emissions : CondData := {}
deriving DecidableEq, Repr

/-- One CISPR standard table. `class_a`/`class_b` at top level, with the
CISPR 11 variant nesting the class keys under `group_1`. An absent or
empty (falsy) class dict is modelled as `none`. -/
structure StandardData where
  class_a : Option ClassData := none
  class_b : Option ClassData := none
  group_1_class_a : Option ClassData := none
  group_1_class_b : Option ClassData := none
deriving DecidableEq, Repr

/-- Table `cispr_limits.json` (missing standards load as empty tables). -/
structure CisprStore where
  cispr_32 : StandardData := {}
  cispr_11 : StandardData := {}
  cispr_14_1 : StandardData := {}
deriving DecidableEq, Repr

/-- An LTE band record of `lte_bands.json`. -/
structure LteBand where
  band : Int
  name : Option String := none
  uplink_mhz : Option (Rat × Rat) := none
  downlink_mhz : Option (Rat × Rat) := none
  duplex : Option String := none
  bandwidth_mhz : List Rat := []
  regions : List String := []
  notes : Option String := none
deriving DecidableEq, Repr

/-- A per-carrier LTE band group of `us_carrier_bands`. -/
structure LteCarrier where
  primary : List Int := []
  lte_m : List Int := []
deriving DecidableEq, Repr

/-- Table `lte_bands.json`. -/
structure LteStore where
  bands : List LteBand := []
  us_carrier_bands : List (String × LteCarrier) := []
deriving DecidableEq, Repr

/-- An NR band record (FR1 bands carry `uplink_mhz`/`downlink_mhz`, FR2
bands carry `range_mhz`). -/
structure NrBand where
  band : String
  name : Option String := none
  uplink_mhz : Option (Rat × Rat) := none
  downlink_mhz : Option (Rat × Rat) := none
  range_mhz : Option (Rat × Rat) := none
  duplex : Option String := none
  max_bandwidth_mhz : Option Rat := none
  notes : Option String := none
deriving DecidableEq, Repr

/-- A per-carrier NR band group of `us_carrier_nr_bands`. -/
structure NrCarrier where
  low_band : List String := []
  mid_band : List String := []
  mmwave : List String := []
  notes : Option String := none
deriving DecidableEq, Repr

/-- Table `nr_bands.json`. -/
structure NrStore where
  fr1_bands : List NrBand := []
  fr2_bands : List NrBand := []
  us_carrier_nr_bands : List (String × NrCarrier) := []
deriving DecidableEq, Repr

/-- The six module-level tables loaded at process start. -/
structure Store where
  part15 : Part15Store := {}
  part18 : Part18Store := {}
  restricted_bands : List RestrictedBand := []
  cispr : CisprStore := {}
  lte : LteStore := {}
  nr : NrStore := {}
deriving DecidableEq, Repr

/-- Function `find_limit_for_frequency`: first record with
`freq_min_mhz <= f < freq_max_mhz`, scanning in list order. -/
def find_limit_for_frequency (limits : List LimitRec) (freq_mhz : Rat) :
    Option LimitRec :=
  match limits with
  | [] => none
  | limit :: rest =>
    if limit.freq_min_mhz ≤ freq_mhz ∧ freq_mhz < limit.freq_max_mhz then
      some limit
    else
      find_limit_for_frequency rest freq_mhz

/-- Function `check_restricted_band`: first restricted band with
`freq_min_mhz <= f <= freq_max_mhz` (closed interval). -/
def check_restricted_band (bands : List RestrictedBand) (freq_mhz : Rat) :
    Option RestrictedBand :=
  match bands with
  | [] => none
  | band :: rest =>
    if band.freq_min_mhz ≤ freq_mhz ∧ freq_mhz ≤ band.freq_max_mhz then
      some band
    else
      check_restricted_band rest freq_mhz

/-- Function `check_ism_band`: first ISM band whose `range_mhz` (defaulting to
`[0, 0]` when the key is missing) contains `f` in the closed sense. -/
def check_ism_band (ism_bands : List IsmBand) (freq_mhz : Rat) :
    Option IsmBand :=
  match ism_bands with
  | [] => none
  | band :: rest =>
    let range_mhz := band.range_mhz.getD (0, 0)
    if range_mhz.1 ≤ freq_mhz ∧ freq_mhz ≤ range_mhz.2 then
      some band
    else
      check_ism_band rest freq_mhz

/-- Function `find_lte_band`: exact scan by integer band number. -/
def find_lte_band (bands : List LteBand) (band_num : Int) : Option LteBand :=
  match bands with
  | [] => none
  | band :: rest =>
    if band.band = band_num then some band else find_lte_band rest band_num

/-- One of the two loops of `find_nr_band`: scan a sub-table for an
already-lower-cased band name. -/
def findNrIn (bands : List NrBand) (band_name : String) : Option NrBand :=
  match bands with
  | [] => none
  | band :: rest =>
    if pyLower band.band = band_name then some band
    else findNrIn rest band_name

/-- Function `find_nr_band`: case-insensitive name lookup, FR1 scanned before FR2. -/
def find_nr_band (nr : NrStore) (band_name : String) : Option NrBand :=
  let nm := pyLower band_name
  match findNrIn nr.fr1_bands nm with
  | some band => some band
  | none => findNrIn nr.fr2_bands nm

/-- Function `format_limit_result`: render one matched limit record, branching on
which value field is present, in the fixed source order. -/
def format_limit_result (limit : LimitRec) : String :=
  let freq_range :=
    toString limit.freq_min_mhz ++ " - " ++ toString limit.freq_max_mhz ++ " MHz"
  let value :=
    match limit.limit_dbuv_m with
    | some v => toString v ++ " dBuV/m"
    | none =>
      match limit.limit_uv_m with
      | some v => toString v ++ " uV/m (" ++ optStr limit.limit_dbuv_m ++ " dBuV/m)"
      | none =>
        match limit.limit_dbuv with
        | some v => toString v ++ " dBuV"
        | none =>
          match limit.limit_dbuv_qp with
          | some v =>
            "QP: " ++ toString v ++ " dBuV/m, Avg: " ++
              optStr limit.limit_dbuv_avg ++ " dBuV/m"
          | none => "See notes"
  let distance :=
    match limit.distance_m with
    | some d => "@ " ++ toString d ++ "m"
    | none => ""
  let detector :=
    match limit.detector with
    | some d => "(" ++ d ++ ")"
    | none => ""
  let notes :=
    match limit.notes with
    | some n => " - " ++ n
    | none => ""
  "  " ++ freq_range ++ ": " ++ value ++ " " ++ distance ++ " " ++ detector ++ notes

/-- Standard selection of `get_cispr_limit`: substring-fuzzy match on the
lower-cased standard name; `none` models the "Unknown CISPR standard"
early return. -/
def cisprSelectStd (cispr : CisprStore) (standard : String) :
    Option StandardData :=
  if strContains standard ("32") = true ∨ strContains standard ("22") = true then
    some cispr.cispr_32
  else if strContains standard ("11") = true then
    some cispr.cispr_11
  else if strContains standard ("14") = true then
    some cispr.cispr_14_1
  else
    none

/-- Class resolution of `get_cispr_limit`:
`data.get(class_key, data.get('group_1', {}).get(class_key, {}))` with
`class_key = "class_a"` iff the lower-cased class is `"a"`, else
`"class_b"`; a falsy result yields `none` ("No data ..."). -/
def cisprClassData (data : StandardData) (device_class : String) :
    Option ClassData :=
  if device_class = "a" then
    match data.class_a with
    | some cd => some cd
    | none => data.group_1_class_a
  else
    match data.class_b with
    | some cd => some cd
    | none => data.group_1_class_b

/-- The radiated-emissions part of `get_cispr_limit` (lines 125-143):
primary table first; on a miss, the `above_1ghz` sub-table is consulted
only when it is present (truthy) and `freq_mhz >= 1000`, and a miss there
appends nothing; otherwise the explicit not-found text is appended. -/
def cisprRadiatedPart (class_data : ClassData) (freq_mhz : Rat) : String :=
  let rad_data := class_data.radiated_emissions
  match find_limit_for_frequency rad_data.limits freq_mhz with
  | some limit =>
    "Radiated Emissions (@ " ++ optStr rad_data.measurement_distance_m ++
      "m):\n" ++ format_limit_result limit
  | none =>
    match rad_data.above_1ghz with
    | some above_1g =>
      if 1000 ≤ freq_mhz then
        match find_limit_for_frequency above_1g.limits freq_mhz with
        | some limit =>
          "Radiated Emissions >1GHz (@ " ++
            optStr above_1g.measurement_distance_m ++ "m):\n" ++
            format_limit_result limit
        | none => ""
      else
        "No radiated limit found for this frequency"
    | none => "No radiated limit found for this frequency"

/-- The conducted-emissions part of `get_cispr_limit` (lines 144-153). -/
def cisprConductedPart (class_data : ClassData) (freq_mhz : Rat) : String :=
  let cond_data := class_data.conducted_emissions
  match find_limit_for_frequency cond_data.limits freq_mhz with
  | some limit =>
    "Conducted Emissions (" ++ cond_data.port.getD ("AC mains") ++ "):\n" ++
      format_limit_result limit
  | none => "No conducted limit found for this frequency"

/-- The header line of a successful `get_cispr_limit` result. -/
def cisprHeader (standard device_class : String) (freq_mhz : Rat) : String :=
  "CISPR " ++ pyUpper standard ++ " Class " ++ pyUpper device_class ++
    " at " ++ toString freq_mhz ++ " MHz\n" ++ repeatChar '=' 50 ++ "\n\n"

/-- Function `get_cispr_limit` (lines 103-155). -/
def get_cispr_limit (cispr : CisprStore) (standard0 device_class0 : String)
    (freq_mhz : Rat) (emission_type : String) : String :=
  let standard := pyLower standard0
  let device_class := pyLower device_class0
  match cisprSelectStd cispr standard with
  | none => "Unknown CISPR standard: " ++ standard
  | some data =>
    match cisprClassData data device_class with
    | none => "No data for " ++ standard ++ " Class " ++ pyUpper device_class
    | some class_data =>
      let result := cisprHeader standard device_class freq_mhz
      if emission_type = "radiated" then
        result ++ cisprRadiatedPart class_data freq_mhz
      else
        result ++ cisprConductedPart class_data freq_mhz

/-- The Section 15.109 block of the `fcc_part15_limit` branch
(lines 325-341), as the list of strings appended to `results`. -/
def sec109Block (p15 : Part15Store) (freq_mhz : Rat) (device_class : String) :
    List String :=
  let sec_data := p15.section_15_109
  ["\n## Section 15.109 - " ++ sec_data.title.getD ("Radiated Emission Limits")]
  ++ (if device_class = "A" ∨ device_class = "both" then
        match find_limit_for_frequency sec_data.class_a.limits freq_mhz with
        | some limit =>
          ["\nClass A (" ++ sec_data.class_a.description.getD ("Commercial") ++ "):",
           format_limit_result limit]
        | none => []
      else [])
  ++ (if device_class = "B" ∨ device_class = "both" then
        match find_limit_for_frequency sec_data.class_b.limits freq_mhz with
        | some limit =>
          ["\nClass B (" ++ sec_data.class_b.description.getD ("Residential") ++ "):",
           format_limit_result limit]
        | none => []
      else [])

/-- The Section 15.207 block of the `fcc_part15_limit` branch
(lines 343-357), as appended inside its guard. -/
def sec207Block (p15 : Part15Store) (freq_mhz : Rat) (device_class : String) :
    List String :=
  let sec_data := p15.section_15_207
  ["\n## Section 15.207 - " ++ sec_data.title.getD ("Conducted Limits")]
  ++ (if device_class = "A" ∨ device_class = "both" then
        match find_limit_for_frequency sec_data.class_a.limits freq_mhz with
        | some limit => ["\nClass A:", format_limit_result limit]
        | none => []
      else [])
  ++ (if device_class = "B" ∨ device_class = "both" then
        match find_limit_for_frequency sec_data.class_b.limits freq_mhz with
        | some limit => ["\nClass B:", format_limit_result limit]
        | none => []
      else [])

/-- The Section 15.209 block of the `fcc_part15_limit` branch
(lines 359-364). -/
def sec209Block (p15 : Part15Store) (freq_mhz : Rat) : List String :=
  let sec_data := p15.section_15_209
  ["\n## Section 15.209 - " ++ sec_data.title.getD ("Intentional Radiators")]
  ++ (match find_limit_for_frequency sec_data.limits freq_mhz with
      | some limit => [format_limit_result limit]
      | none => [])

/-- The restricted-band warning block of the `fcc_part15_limit` branch
(lines 366-369). -/
def restrictedWarnBlock (bands : List RestrictedBand) (freq_mhz : Rat) :
    List String :=
  match check_restricted_band bands freq_mhz with
  | some restricted =>
    ["\n⚠️  WARNING: " ++ toString freq_mhz ++ " MHz is in a RESTRICTED BAND (15.205)",
     "   " ++ toString restricted.freq_min_mhz ++ " - " ++
       toString restricted.freq_max_mhz ++ " MHz: " ++ restricted.service]
  | none => []

/-- The full `fcc_part15_limit` branch (lines 318-371); `sectionArg` is the
`section` argument. Note the Section 15.207 block is guarded by
`freq_mhz <= 30` in addition to the section filter. -/
def fccPart15Text (store : Store) (freq_mhz : Rat)
    (sectionArg device_class : String) : String :=
  let results :=
    ["FCC Part 15 Limits at " ++ toString freq_mhz ++ " MHz\n" ++ repeatChar '=' 40]
    ++ (if sectionArg = "15.109" ∨ sectionArg = "all" then
          sec109Block store.part15 freq_mhz device_class
        else [])
    ++ (if (sectionArg = "15.207" ∨ sectionArg = "all") ∧ freq_mhz ≤ 30 then
          sec207Block store.part15 freq_mhz device_class
        else [])
    ++ (if sectionArg = "15.209" ∨ sectionArg = "all" then
          sec209Block store.part15 freq_mhz
        else [])
    ++ restrictedWarnBlock store.restricted_bands freq_mhz
  String.intercalate ("\n") results

/-- The `fcc_part18_limit` branch (lines 373-400). The `range_mhz` and
`center_mhz` indexing on a matched ISM band is unconditional in the
source, hence the `Option` result. -/
def fccPart18Text (store : Store) (freq_mhz : Rat) (eq_type : String) :
    Option String := do
  let base :=
    "FCC Part 18 (ISM Equipment) at " ++ toString freq_mhz ++ " MHz\n" ++
      repeatChar '=' 50 ++ "\n\n"
  let ismPart ←
    match check_ism_band store.part18.ism_bands freq_mhz with
    | some ism_band => do
      let rng ← ism_band.range_mhz
      pure ("✓ WITHIN ISM BAND\n" ++
        "  Center: " ++ toString ism_band.center_mhz ++ " MHz\n" ++
        "  Range: " ++ toString rng.1 ++ " - " ++ toString rng.2 ++ " MHz\n" ++
        (match ism_band.notes with
         | some n => "  Notes: " ++ n ++ "\n"
         | none => "") ++
        "\n  Fundamental emissions: No limit within ISM band\n")
    | none =>
      pure ("✗ OUTSIDE ISM BANDS\n" ++
        "  Standard emission limits apply (same as Part 15.209)\n\n")
  let eq_data :=
    if eq_type = "consumer" then store.part18.section_18_305.consumer_ism
    else if eq_type = "industrial" then store.part18.section_18_305.industrial_ism
    else {}
  let limitPart :=
    match find_limit_for_frequency eq_data.emissions_outside_ism freq_mhz with
    | some limit =>
      "\nLimits outside ISM bands (" ++ strTitle eq_type ++ " ISM):\n" ++
        format_limit_result limit
    | none => ""
  pure (base ++ ismPart ++ limitPart)

/-- The `fcc_restricted_bands` point-check branch (lines 402-415). -/
def fccRestrictedText (store : Store) (freq_mhz : Rat) : String :=
  match check_restricted_band store.restricted_bands freq_mhz with
  | some restricted =>
    "⚠️  RESTRICTED BAND\n\n" ++
    "Frequency " ++ toString freq_mhz ++
      " MHz falls within a restricted band per 47 CFR 15.205:\n\n" ++
    "  Band: " ++ toString restricted.freq_min_mhz ++ " - " ++
      toString restricted.freq_max_mhz ++ " MHz\n" ++
    "  Protected Service: " ++ restricted.service ++ "\n\n" ++
    "Intentional radiators are generally prohibited from operating in this band."
  | none =>
    "✓ CLEAR\n\nFrequency " ++ toString freq_mhz ++ " MHz is NOT in a restricted band."

/-- The `fcc_restricted_bands_list` branch (lines 417-428); a `none`
upper bound models the `float('inf')` default. -/
def fccRestrictedListText (store : Store) (freq_min : Rat)
    (freq_max : Option Rat) : String :=
  let filtered := store.restricted_bands.filter (fun b =>
    decide (freq_min ≤ b.freq_max_mhz) &&
      (match freq_max with
       | some fm => decide (b.freq_min_mhz ≤ fm)
       | none => true))
  let header :=
    "FCC Part 15.205 Restricted Bands (" ++ toString filtered.length ++
      " bands)\n" ++ repeatChar '=' 50 ++ "\n\n"
  header ++ String.join (filtered.map (fun band =>
    "  " ++ padLeft (fmtFixed band.freq_min_mhz 4) 10 ++ " - " ++
      padRight (fmtFixed band.freq_max_mhz 4) 10 ++ " MHz  |  " ++
      band.service ++ "\n"))

/-- The `ism_bands_list` branch (lines 430-440); `band['range_mhz']` is
indexed unconditionally. -/
def ismBandsListText (store : Store) : Option String := do
  let lines ← store.part18.ism_bands.mapM (fun band => do
    let rng ← band.range_mhz
    pure ("  " ++ padLeft (toString band.center_mhz) 8 ++ " MHz  (" ++
      toString rng.1 ++ "-" ++ toString rng.2 ++ " MHz)" ++
      (match band.notes with
       | some n => "  [" ++ n ++ "]"
       | none => "") ++ "\n"))
  pure ("ISM Frequency Bands (ITU Radio Regulations)\n" ++ repeatChar '=' 50 ++
    "\n\n" ++ String.join lines)

/-- Class selection of the `emc_compare_limits` branch on Part 15 data:
`.get(f"class_{dc}", {})` for a lower-cased class string. -/
def sec109ClassSel (s : Sec109) (dc : String) : ClassLimits :=
  if dc = "a" then s.class_a else if dc = "b" then s.class_b else {}

/-- Class selection of the `emc_compare_limits` branch on the CISPR 32
table: `.get(f"class_{dc}", {})` (no `group_1` fallback here). -/
def cispr32ClassSel (s : StandardData) (dc : String) : ClassData :=
  if dc = "a" then s.class_a.getD {}
  else if dc = "b" then s.class_b.getD {}
  else {}

/-- The FCC 15.109 lookup of `emc_compare_limits` (lines 458-459). -/
def emcFccFind (p15 : Part15Store) (freq_mhz : Rat) (dcLower : String) :
    Option LimitRec :=
  find_limit_for_frequency (sec109ClassSel p15.section_15_109 dcLower).limits freq_mhz

/-- The CISPR 32 radiated block consulted by `emc_compare_limits`
(lines 466-467). -/
def emcCisprRad (cispr : CisprStore) (dcLower : String) : RadData :=
  (cispr32ClassSel cispr.cispr_32 dcLower).radiated_emissions

/-- The CISPR 32 lookup of `emc_compare_limits` (line 468). -/
def emcCisprFind (cispr : CisprStore) (freq_mhz : Rat) (dcLower : String) :
    Option LimitRec :=
  find_limit_for_frequency (emcCisprRad cispr dcLower).limits freq_mhz

/-- The distance-correction note of `emc_compare_limits` (lines 474-479):
present exactly when both lookups matched; the corrected value is the
CISPR `limit_dbuv_m` plus 10.5, shown with one decimal. An empty string
for the missing-field case (unreachable when the matched record carries
`limit_dbuv_m`). -/
def emcNoteStr (fcc cispr : Option LimitRec) : String :=
  match fcc, cispr with
  | some _, some c =>
    match c.limit_dbuv_m with
    | some v =>
      "Note: FCC uses 3m, CISPR uses 10m measurement distance.\n" ++
      "Distance correction: +10.5 dB to convert 10m→3m limits.\n" ++
      "CISPR 32 at 3m (calculated): " ++ fmtFixed (v + 10.5) 1 ++ " dBuV/m\n"
    | none => ""
  | _, _ => ""

/-- The `emc_compare_limits` branch (lines 451-481). All record-field
indexing on matched records is unconditional in the source, hence the
`Option` result (`none` models a `KeyError`). -/
def emcCompareText (store : Store) (freq_mhz : Rat) (device_class0 : String) :
    Option String := do
  let device_class := pyUpper device_class0
  let result :=
    "EMC Limit Comparison at " ++ toString freq_mhz ++ " MHz (Class " ++
      device_class ++ ")\n" ++ repeatChar '=' 55 ++ "\n\n"
  let fcc_limit := emcFccFind store.part15 freq_mhz (pyLower device_class)
  let fccPart ←
    match fcc_limit with
    | some l => do
      let v ← l.limit_dbuv_m
      let d ← l.distance_m
      pure ("FCC Part 15.109 Class " ++ device_class ++ ":\n  " ++
        toString v ++ " dBuV/m @ " ++ toString d ++ "m (QP)\n\n")
    | none => pure ("")
  let cispr_rad := emcCisprRad store.cispr (pyLower device_class)
  let cispr_limit := emcCisprFind store.cispr freq_mhz (pyLower device_class)
  let cisprPart ←
    match cispr_limit with
    | some c => do
      let v ← c.limit_dbuv_m
      pure ("CISPR 32 Class " ++ device_class ++ ":\n  " ++ toString v ++
        " dBuV/m @ " ++ toString (cispr_rad.measurement_distance_m.getD 10) ++
        "m (QP)\n\n")
    | none => pure ("")
  let notePart ←
    match fcc_limit, cispr_limit with
    | some _, some c => do
      let _v ← c.limit_dbuv_m
      pure (emcNoteStr fcc_limit cispr_limit)
    | _, _ => pure ("")
  pure (result ++ fccPart ++ cisprPart ++ notePart)

/-- The `lte_band_lookup` branch (lines 483-504). -/
def lteBandLookupText (lte : LteStore) (band_num : Int) : String :=
  match find_lte_band lte.bands band_num with
  | some band =>
    "LTE Band " ++ toString band_num ++ " (" ++ band.name.getD ("Unknown") ++
      ")\n" ++ repeatChar '=' 40 ++ "\n\n" ++
    (match band.uplink_mhz with
     | some ul => "Uplink:   " ++ toString ul.1 ++ " - " ++ toString ul.2 ++ " MHz\n"
     | none => "") ++
    (match band.downlink_mhz with
     | some dl => "Downlink: " ++ toString dl.1 ++ " - " ++ toString dl.2 ++ " MHz\n"
     | none => "") ++
    "Duplex:   " ++ band.duplex.getD ("Unknown") ++ "\n" ++
    "Bandwidths: " ++ String.intercalate (", ") (band.bandwidth_mhz.map toString) ++
      " MHz\n" ++
    "Regions:  " ++ String.intercalate (", ") band.regions ++ "\n" ++
    (match band.notes with
     | some n => "Notes:    " ++ n ++ "\n"
     | none => "")
  | none => "LTE Band " ++ toString band_num ++ " not found in database."

/-- Association lookup on a carrier table, modelling `d.get(key, {})`
followed by a truthiness test. -/
def assocGet {α : Type} (l : List (String × α)) (k : String) : Option α :=
  match l with
  | [] => none
  | (k0, v) :: rest => if k0 = k then some v else assocGet rest k

/-- The `lte_bands_list` branch (lines 506-529); `band['duplex']` in the
listing loop is unconditional, hence the `Option` result. -/
def lteBandsListText (store : Store) (region0 carrier0 : String) :
    Option String :=
  let region := pyLower region0
  let carrier := pyLower carrier0
  if carrier ≠ "" then
    match assocGet store.lte.us_carrier_bands carrier with
    | some carrier_bands =>
      pure ("LTE Bands for " ++ pyUpper carrier ++ "\n" ++ repeatChar '=' 40 ++
        "\n\n" ++
        "Primary bands: " ++
          String.intercalate (", ") (carrier_bands.primary.map toString) ++ "\n" ++
        "LTE-M bands:   " ++
          String.intercalate (", ") (carrier_bands.lte_m.map toString) ++ "\n")
    | none =>
      pure ("Carrier ’" ++ carrier ++ "’ not found. Available: att, verizon, tmobile")
  else
    let bands := store.lte.bands
    let bands :=
      if region ≠ "" then
        bands.filter (fun b => (b.regions.map pyLower).contains region)
      else bands
    let header :=
      "LTE Bands" ++ (if region ≠ "" then " (" ++ strTitle region ++ ")" else "") ++
        "\n" ++ repeatChar '=' 50 ++ "\n\n"
    do
      let lines ← (bands.take 30).mapM (fun band => do
        let dl := band.downlink_mhz.getD (0, 0)
        let dpx ← band.duplex
        pure ("Band " ++ padLeft (toString band.band) 2 ++ ": " ++
          padLeft (toString dl.1) 4 ++ "-" ++ padRight (toString dl.2) 4 ++
          " MHz (" ++ dpx ++ ") " ++ band.name.getD ("") ++ "\n"))
      pure (header ++ String.join lines)

/-- The `nr_band_lookup` branch (lines 531-552); `band['downlink_mhz']` is
indexed unconditionally once `uplink_mhz` is present. -/
def nrBandLookupText (nr : NrStore) (band_name : String) : Option String :=
  match find_nr_band nr band_name with
  | some band => do
    let base :=
      "5G NR Band " ++ band.band ++ " (" ++ band.name.getD ("Unknown") ++
        ")\n" ++ repeatChar '=' 40 ++ "\n\n"
    let rangesPart ←
      match band.uplink_mhz with
      | some ul => do
        let dl ← band.downlink_mhz
        pure ("Uplink:   " ++ toString ul.1 ++ " - " ++ toString ul.2 ++ " MHz\n" ++
          "Downlink: " ++ toString dl.1 ++ " - " ++ toString dl.2 ++ " MHz\n")
      | none =>
        match band.range_mhz with
        | some rng =>
          pure ("Range:    " ++ toString rng.1 ++ " - " ++ toString rng.2 ++ " MHz\n")
        | none => pure ("")
    pure (base ++ rangesPart ++
      "Duplex:   " ++ band.duplex.getD ("Unknown") ++ "\n" ++
      "Max BW:   " ++ optStr band.max_bandwidth_mhz ++ " MHz\n" ++
      (match band.notes with
       | some n => "Notes:    " ++ n ++ "\n"
       | none => ""))
  | none =>
    pure ("NR Band ’" ++ band_name ++ "’ not found. Use format ’n77’, ’n260’, etc.")

/-- The `nr_bands_list` branch (lines 554-583). -/
def nrBandsListText (nr : NrStore) (freq_range0 carrier0 : String) :
    Option String :=
  let freq_range := pyUpper freq_range0
  let carrier := pyLower carrier0
  if carrier ≠ "" then
    match assocGet nr.us_carrier_nr_bands carrier with
    | some carrier_bands =>
      pure ("5G NR Bands for " ++ pyUpper carrier ++ "\n" ++ repeatChar '=' 40 ++
        "\n\n" ++
        "Low-band:  " ++ String.intercalate (", ") carrier_bands.low_band ++ "\n" ++
        "Mid-band:  " ++ String.intercalate (", ") carrier_bands.mid_band ++ "\n" ++
        "mmWave:    " ++ String.intercalate (", ") carrier_bands.mmwave ++ "\n" ++
        (match carrier_bands.notes with
         | some n => "Notes:     " ++ n ++ "\n"
         | none => ""))
    | none => pure ("Carrier ’" ++ carrier ++ "’ not found.")
  else do
    let fr1Part ←
      if freq_range = "FR1" ∨ freq_range = "ALL" then do
        let lines ← nr.fr1_bands.mapM (fun band =>
          match band.uplink_mhz with
          | some ul => do
            let dpx ← band.duplex
            pure ("  " ++ padLeft band.band 4 ++ ": " ++
              padLeft (toString ul.1) 4 ++ "-" ++ padRight (toString ul.2) 4 ++
              " MHz (" ++ dpx ++ ") " ++ band.name.getD ("") ++ "\n")
          | none => pure (""))
        pure ("## FR1 (Sub-6 GHz)\n" ++ String.join lines)
      else pure ("")
    let fr2Part ←
      if freq_range = "FR2" ∨ freq_range = "ALL" then do
        let lines ← nr.fr2_bands.mapM (fun band => do
          let rng ← band.range_mhz
          pure ("  " ++ padLeft band.band 4 ++ ": " ++
            padLeft (toString rng.1) 5 ++ "-" ++ padRight (toString rng.2) 5 ++
            " MHz " ++ band.name.getD ("") ++ "\n"))
        pure ("\n## FR2 (mmWave)\n" ++ String.join lines)
      else pure ("")
    pure ("5G NR Bands\n" ++ repeatChar '=' 50 ++ "\n\n" ++ fr1Part ++ fr2Part)

/-- The match collection of the `frequency_to_band` branch (lines
587-610): every LTE uplink/downlink and NR FR1/FR2 containment match
(closed intervals), in scan order. -/
def freqToBandFound (store : Store) (freq_mhz : Rat) : List String :=
  let foundLte := store.lte.bands.flatMap (fun band =>
    (match band.uplink_mhz with
     | some ul =>
       if ul.1 ≤ freq_mhz ∧ freq_mhz ≤ ul.2 then
         ["LTE Band " ++ toString band.band ++ " (uplink)"]
       else []
     | none => []) ++
    (match band.downlink_mhz with
     | some dl =>
       if dl.1 ≤ freq_mhz ∧ freq_mhz ≤ dl.2 then
         ["LTE Band " ++ toString band.band ++ " (downlink)"]
       else []
     | none => []))
  let foundFr1 := store.nr.fr1_bands.flatMap (fun band =>
    (match band.uplink_mhz with
     | some ul =>
       if ul.1 ≤ freq_mhz ∧ freq_mhz ≤ ul.2 then
         ["NR " ++ band.band ++ " (uplink)"]
       else []
     | none => []) ++
    (match band.downlink_mhz with
     | some dl =>
       if dl.1 ≤ freq_mhz ∧ freq_mhz ≤ dl.2 then
         ["NR " ++ band.band ++ " (downlink)"]
       else []
     | none => []))
  let foundFr2 := store.nr.fr2_bands.flatMap (fun band =>
    match band.range_mhz with
    | some rng =>
      if rng.1 ≤ freq_mhz ∧ freq_mhz ≤ rng.2 then ["NR " ++ band.band] else []
    | none => [])
  foundLte ++ foundFr1 ++ foundFr2

/-- The `frequency_to_band` branch (lines 585-624): render the collected
matches, an explicit not-found line when there are none, and the
supplementary ISM membership line. -/
def frequencyToBandText (store : Store) (freq_mhz : Rat) : String :=
  let found := freqToBandFound store freq_mhz
  "Bands containing " ++ toString freq_mhz ++ " MHz\n" ++ repeatChar '=' 40 ++
    "\n\n" ++
  (if found ≠ [] then String.join (found.map (fun b => "  - " ++ b ++ "\n"))
   else "  No LTE/NR bands found for this frequency.\n") ++
  (match check_ism_band store.part18.ism_bands freq_mhz with
   | some ism => "\n  ISM Band: " ++ toString ism.center_mhz ++ " MHz center\n"
   | none => "")

/-- The static `emc_standards_list` branch (lines 626-651). -/
def emcStandardsListText : String :=
  "Available EMC Standards and Regulations\n" ++ repeatChar '=' 45 ++ "\n\n" ++
  "## FCC (United States)\n" ++
  "  ✓ Part 15.109 - Radiated emissions (unintentional)\n" ++
  "  ✓ Part 15.207 - Conducted emissions\n" ++
  "  ✓ Part 15.209 - Radiated emissions (intentional)\n" ++
  "  ✓ Part 15.205 - Restricted frequency bands\n" ++
  "  ✓ Part 18 - ISM equipment\n\n" ++
  "## CISPR (International)\n" ++
  "  ✓ CISPR 11 - Industrial, scientific, medical equipment\n" ++
  "  ✓ CISPR 32 - Multimedia equipment (replaces CISPR 22)\n" ++
  "  ✓ CISPR 14-1 - Household appliances\n\n" ++
  "## Cellular (3GPP)\n" ++
  "  ✓ LTE bands (E-UTRA)\n" ++
  "  ✓ 5G NR bands (FR1 + FR2)\n" ++
  "  ✓ US carrier band info (AT&T, Verizon, T-Mobile)\n\n" ++
  "## Coming Soon\n" ++
  "  - CISPR 25 - Automotive components\n" ++
  "  - IEC 60601-1-2 - Medical devices\n" ++
  "  - PTCRB certification requirements\n"

/-- Outcome of the outbound eCFR request: `ok status dump` is a response
whose pretty-printed JSON body is `dump`; `exn msg` is any exception
raised inside the `try` block. -/
inductive HttpOutcome where
  | ok (status : Nat) (dump : String)
  | exn (msg : String)
deriving DecidableEq, Repr

/-- The `ecfr_query` branch (lines 653-678). On a 200 response the
pretty-printed payload is truncated to 8000 characters with nothing
appended after it; on any other status only the status is reported; any
exception becomes a textual error message. -/
def ecfrText (title part : Int) (sectionArg : Option String)
    (resp : HttpOutcome) : String :=
  let _url :=
    match sectionArg with
    | some s =>
      "https://www.ecfr.gov/api/versioner/v1/full/current/title-" ++
        toString title ++ ".json?part=" ++ toString part ++ "&section=" ++ s
    | none =>
      "https://www.ecfr.gov/api/versioner/v1/structure/current/title-" ++
        toString title ++ ".json?part=" ++ toString part
  match resp with
  | .ok status dump =>
    if status = 200 then
      "eCFR Query: Title " ++ toString title ++ ", Part " ++ toString part ++
        (match sectionArg with
         | some s => ", Section " ++ s
         | none => "") ++
        "\n" ++ repeatChar '=' 50 ++ "\n\n" ++ pySlice dump 8000
    else
      "eCFR API returned status " ++ toString status
  | .exn e => "Error querying eCFR API: " ++ e

/-- The argument mapping of one dispatch call. Each field models the JSON
value under the like-named key (`sectionArg` models `"section"`; the
`"band"` key is an integer for `lte_band_lookup` and a string for
`nr_band_lookup`, modelled as `band_int`/`band_str`). `none` means the
key is absent. -/
structure Args where
  frequency_mhz : Option Rat := none
  sectionArg : Option String := none
  device_class : Option String := none
  equipment_type : Option String := none
  standard : Option String := none
  emission_type : Option String := none
  band_int : Option Int := none
  band_str : Option String := none
  region : Option String := none
  carrier : Option String := none
  freq_min_mhz : Option Rat := none
  freq_max_mhz : Option Rat := none
  frequency_range : Option String := none
  title : Option Int := none
  part : Option Int := none
deriving DecidableEq, Repr

/-- The `call_tool` dispatch (lines 315-681): one branch per tool name,
an "Unknown tool" text otherwise. A `none` result models an uncaught
exception (a `KeyError` on a required argument or record field). Only the
`ecfr_query` branch consults the `resp` outcome. -/
def callTool (store : Store) (name : String) (args : Args)
    (resp : HttpOutcome) : Option String :=
  if name = "fcc_part15_limit" then do
    let freq_mhz ← args.frequency_mhz
    pure (fccPart15Text store freq_mhz (args.sectionArg.getD ("all"))
      (args.device_class.getD ("both")))
  else if name = "fcc_part18_limit" then do
    let freq_mhz ← args.frequency_mhz
    fccPart18Text store freq_mhz (args.equipment_type.getD ("consumer"))
  else if name = "fcc_restricted_bands" then do
    let freq_mhz ← args.frequency_mhz
    pure (fccRestrictedText store freq_mhz)
  else if name = "fcc_restricted_bands_list" then
    pure (fccRestrictedListText store (args.freq_min_mhz.getD 0) args.freq_max_mhz)
  else if name = "ism_bands_list" then
    ismBandsListText store
  else if name = "cispr_limit" then do
    let freq_mhz ← args.frequency_mhz
    let standard ← args.standard
    pure (get_cispr_limit store.cispr standard (args.device_class.getD ("B"))
      freq_mhz (args.emission_type.getD ("radiated")))
  else if name = "emc_compare_limits" then do
    let freq_mhz ← args.frequency_mhz
    emcCompareText store freq_mhz (args.device_class.getD ("B"))
  else if name = "lte_band_lookup" then do
    let band_num ← args.band_int
    pure (lteBandLookupText store.lte band_num)
  else if name = "lte_bands_list" then
    lteBandsListText store (args.region.getD ("")) (args.carrier.getD (""))
  else if name = "nr_band_lookup" then do
    let band_name ← args.band_str
    nrBandLookupText store.nr band_name
  else if name = "nr_bands_list" then
    nrBandsListText store.nr (args.frequency_range.getD ("all"))
      (args.carrier.getD (""))
  else if name = "frequency_to_band" then do
    let freq_mhz ← args.frequency_mhz
    pure (frequencyToBandText store freq_mhz)
  else if name = "emc_standards_list" then
    pure emcStandardsListText
  else if name = "ecfr_query" then do
    let title ← args.title
    let part ← args.part
    pure (ecfrText title part args.sectionArg resp)
  else
    pure ("Unknown tool: " ++ name)

/-- Half-open containment predicate of the Range Matcher. -/
abbrev containsHO (r : LimitRec) (f : Rat) : Prop :=
  r.freq_min_mhz ≤ f ∧ f < r.freq_max_mhz

/-- Interval disjointness of two limit records, the well-formedness
(non-overlap) convention of one logical table. -/
abbrev disjHO (a b : LimitRec) : Prop :=
  a.freq_max_mhz ≤ b.freq_min_mhz ∨ b.freq_max_mhz ≤ a.freq_min_mhz

/-- A two-row demonstration table (FCC 15.109 Class B shape). -/
def demoLimits : List LimitRec :=
  [{ freq_min_mhz := 30, freq_max_mhz := 88, limit_dbuv_m := some 40,
     distance_m := some 3 },
   { freq_min_mhz := 88, freq_max_mhz := 216, limit_dbuv_m := some 46,
     distance_m := some 3 }]

/-- A two-row demonstration restricted-bands table. -/
def demoRestrictedBands : List RestrictedBand :=
  [{ freq_min_mhz := 890, freq_max_mhz := 902, service := "Federal Government" },
   { freq_min_mhz := 902, freq_max_mhz := 928, service := "Amateur/ISM" }]

/-- A demonstration `above_1ghz` sub-table. -/
def demoAbove1G : Above1G :=
  { limits := [{ freq_min_mhz := 1000, freq_max_mhz := 6000,
                 limit_dbuv_m := some 50 }],
    measurement_distance_m := some 3 }

/-- A demonstration radiated block: empty primary table, populated
`above_1ghz` sub-table. -/
def demoRadData : RadData :=
  { limits := [], measurement_distance_m := some 10,
    above_1ghz := some demoAbove1G }

/-- A demonstration CISPR store built around `demoRadData`. -/
def demoCisprStore : CisprStore :=
  { cispr_32 := { class_b := some { radiated_emissions := demoRadData } } }

/-- Part 15.109 Class B demonstration data for the comparison branch. -/
def demoP15C4 : Part15Store :=
  { section_15_109 :=
    { class_b :=
      { limits := [{ freq_min_mhz := 30, freq_max_mhz := 88,
                     limit_dbuv_m := some 40, distance_m := some 3 }] } } }

/-- CISPR 32 Class B radiated demonstration data for the comparison
branch. -/
def demoRadC4 : RadData :=
  { limits := [{ freq_min_mhz := 30, freq_max_mhz := 230,
                 limit_dbuv_m := some 30 }],
    measurement_distance_m := some 10 }

/-- CISPR 32 Class B demonstration data for the comparison branch. -/
def demoCisprC4 : CisprStore :=
  { cispr_32 := { class_b := some { radiated_emissions := demoRadC4 } } }

/-- A demonstration store on which both comparison lookups match. -/
def demoStoreC4 : Store :=
  { part15 := demoP15C4, cispr := demoCisprC4 }

/-- A 9000-character payload, longer than the display budget. -/
def bigDump : String := String.mk (List.replicate 9000 'a')

/-- Closed containment predicate of the restricted-band classifier. -/
abbrev containsCl (b : RestrictedBand) (f : Rat) : Prop :=
  b.freq_min_mhz ≤ f ∧ f ≤ b.freq_max_mhz

/-- Closed containment predicate of the ISM classifier, on the effective
range `band.get('range_mhz', [0, 0])`. -/
abbrev ismContainsCl (b : IsmBand) (f : Rat) : Prop :=
  (b.range_mhz.getD (0, 0)).1 ≤ f ∧ f ≤ (b.range_mhz.getD (0, 0)).2

/-- The header of the `emc_compare_limits` output (line 455). -/
def emcBaseStr (freq_mhz : Rat) (device_class : String) : String :=
  "EMC Limit Comparison at " ++ toString freq_mhz ++ " MHz (Class " ++
    device_class ++ ")\n" ++ repeatChar '=' 55 ++ "\n\n"

/-- The FCC block of the `emc_compare_limits` output (lines 461-463),
as a total function of the matched record; the empty string stands both
for "no match" and for the unreachable missing-field case. -/
def emcFccStr (device_class : String) (fcc : Option LimitRec) : String :=
  match fcc with
  | some l =>
    match l.limit_dbuv_m, l.distance_m with
    | some v, some d =>
      "FCC Part 15.109 Class " ++ device_class ++ ":\n  " ++ toString v ++
        " dBuV/m @ " ++ toString d ++ "m (QP)\n\n"
    | _, _ => ""
  | none => ""

/-- The CISPR block of the `emc_compare_limits` output (lines 470-472),
as a total function of the matched record. -/
def emcCisprStr (device_class : String) (rad : RadData)
    (cispr : Option LimitRec) : String :=
  match cispr with
  | some c =>
    match c.limit_dbuv_m with
    | some v =>
      "CISPR 32 Class " ++ device_class ++ ":\n  " ++ toString v ++
        " dBuV/m @ " ++ toString (rad.measurement_distance_m.getD 10) ++
        "m (QP)\n\n"
    | none => ""
  | none => ""

theorem find_limit_eq_none_iff (l : List LimitRec) (f : Rat) :
    find_limit_for_frequency l f = none ↔ ∀ r ∈ l, ¬ containsHO r f := by
  induction l with
  | nil => simp [find_limit_for_frequency]
  | cons a t ih =>
    by_cases h : containsHO a f
    · simp only [find_limit_for_frequency]
      rw [if_pos h]
      simp [h]
    · simp only [find_limit_for_frequency]
      rw [if_neg h]
      rw [ih]
      constructor
      · intro hall r hr
        rcases List.mem_cons.mp hr with h1 | h2
        · rw [h1]; exact h
        · exact hall r h2
      · intro hall r hr
        exact hall r (List.mem_cons_of_mem a hr)

theorem find_limit_eq_some_iff (l : List LimitRec) (f : Rat) (r : LimitRec) :
    find_limit_for_frequency l f = some r ↔
      ∃ pre post, l = pre ++ r :: post ∧ containsHO r f ∧
        ∀ s ∈ pre, ¬ containsHO s f := by
  induction l with
  | nil =>
    simp only [find_limit_for_frequency]
    constructor
    · intro h; cases h
    · rintro ⟨pre, post, h, -, -⟩
      cases pre <;> simp at h
  | cons a t ih =>
    by_cases h : containsHO a f
    · simp only [find_limit_for_frequency]
      rw [if_pos h]
      constructor
      · intro he
        injection he with he
        subst he
        exact ⟨[], t, rfl, h, by simp⟩
      · rintro ⟨pre, post, hl, hr, hpre⟩
        cases pre with
        | nil =>
          simp only [List.nil_append, List.cons.injEq] at hl
          rw [hl.1]
        | cons b pre' =>
          simp only [List.cons_append, List.cons.injEq] at hl
          exact absurd (hl.1 ▸ h) (hpre b (by simp))
    · simp only [find_limit_for_frequency]
      rw [if_neg h]
      rw [ih]
      constructor
      · rintro ⟨pre, post, hl, hr, hpre⟩
        refine ⟨a :: pre, post, by rw [hl, List.cons_append], hr, ?_⟩
        intro s hs
        rcases List.mem_cons.mp hs with h1 | h2
        · rw [h1]; exact h
        · exact hpre s h2
      · rintro ⟨pre, post, hl, hr, hpre⟩
        cases pre with
        | nil =>
          simp only [List.nil_append, List.cons.injEq] at hl
          exact absurd (hl.1 ▸ hr) h
        | cons b pre' =>
          simp only [List.cons_append, List.cons.injEq] at hl
          refine ⟨pre', post, hl.2, hr, ?_⟩
          intro s hs
          exact hpre s (by simp [hs])

/-- Claim C1: `find_limit_for_frequency` returns the first record in list
order whose half-open interval `freq_min_mhz <= f < freq_max_mhz` contains
the query, `none` when no record matches, and — in a non-overlapping
table — returns a record iff exactly one record contains `f`. -/
theorem c1_range_matcher (limits : List LimitRec) (f : Rat)
    (hw : limits.Pairwise disjHO) :
    (find_limit_for_frequency limits f = none ↔
      ∀ r ∈ limits, ¬ containsHO r f)
    ∧ (∀ r, find_limit_for_frequency limits f = some r ↔
      ∃ pre post, limits = pre ++ r :: post ∧ containsHO r f ∧
        ∀ s ∈ pre, ¬ containsHO s f)
    ∧ ((find_limit_for_frequency limits f).isSome = true ↔
      ∃! r, r ∈ limits ∧ containsHO r f) := by
  have hsym : Symmetric disjHO := by
    intro a b hab
    exact Or.symm hab
  refine ⟨find_limit_eq_none_iff limits f,
    fun r => find_limit_eq_some_iff limits f r, ?_, ?_⟩
  · intro hs
    obtain ⟨r, hr⟩ := Option.isSome_iff_exists.mp hs
    obtain ⟨pre, post, hl, hcon, hpre⟩ := (find_limit_eq_some_iff limits f r).mp hr
    have hmem : r ∈ limits := by rw [hl]; simp
    refine ⟨r, ⟨hmem, hcon⟩, ?_⟩
    rintro s ⟨hsmem, hscon⟩
    by_contra hne
    have hd : disjHO s r := hw.forall hsym hsmem hmem hne
    rcases hd with h1 | h2
    · exact absurd (lt_of_lt_of_le hscon.2 (le_trans h1 hcon.1)) (lt_irrefl f)
    · exact absurd (lt_of_lt_of_le hcon.2 (le_trans h2 hscon.1)) (lt_irrefl f)
  · rintro ⟨r, ⟨hmem, hcon⟩, -⟩
    rcases hfind : find_limit_for_frequency limits f with _ | r'
    · exact absurd hcon ((find_limit_eq_none_iff limits f).mp hfind r hmem)
    · rfl

theorem c1_range_matcher_witness :
    (find_limit_for_frequency demoLimits 100).isSome = true ↔
      ∃! r, r ∈ demoLimits ∧ containsHO r 100 :=
  (c1_range_matcher demoLimits 100 (by decide)).2.2

theorem check_restricted_eq_none_iff (l : List RestrictedBand) (f : Rat) :
    check_restricted_band l f = none ↔ ∀ b ∈ l, ¬ containsCl b f := by
  induction l with
  | nil => simp [check_restricted_band]
  | cons a t ih =>
    by_cases h : containsCl a f
    · simp only [check_restricted_band]
      rw [if_pos h]
      simp [h]
    · simp only [check_restricted_band]
      rw [if_neg h]
      rw [ih]
      constructor
      · intro hall b hb
        rcases List.mem_cons.mp hb with h1 | h2
        · rw [h1]; exact h
        · exact hall b h2
      · intro hall b hb
        exact hall b (List.mem_cons_of_mem a hb)

theorem check_restricted_eq_some_iff (l : List RestrictedBand) (f : Rat)
    (b : RestrictedBand) :
    check_restricted_band l f = some b ↔
      ∃ pre post, l = pre ++ b :: post ∧ containsCl b f ∧
        ∀ s ∈ pre, ¬ containsCl s f := by
  induction l with
  | nil =>
    simp only [check_restricted_band]
    constructor
    · intro h; cases h
    · rintro ⟨pre, post, h, -, -⟩
      cases pre <;> simp at h
  | cons a t ih =>
    by_cases h : containsCl a f
    · simp only [check_restricted_band]
      rw [if_pos h]
      constructor
      · intro he
        injection he with he
        subst he
        exact ⟨[], t, rfl, h, by simp⟩
      · rintro ⟨pre, post, hl, hr, hpre⟩
        cases pre with
        | nil =>
          simp only [List.nil_append, List.cons.injEq] at hl
          rw [hl.1]
        | cons c pre' =>
          simp only [List.cons_append, List.cons.injEq] at hl
          exact absurd (hl.1 ▸ h) (hpre c (by simp))
    · simp only [check_restricted_band]
      rw [if_neg h]
      rw [ih]
      constructor
      · rintro ⟨pre, post, hl, hr, hpre⟩
        refine ⟨a :: pre, post, by rw [hl, List.cons_append], hr, ?_⟩
        intro s hs
        rcases List.mem_cons.mp hs with h1 | h2
        · rw [h1]; exact h
        · exact hpre s h2
      · rintro ⟨pre, post, hl, hr, hpre⟩
        cases pre with
        | nil =>
          simp only [List.nil_append, List.cons.injEq] at hl
          exact absurd (hl.1 ▸ hr) h
        | cons c pre' =>
          simp only [List.cons_append, List.cons.injEq] at hl
          refine ⟨pre', post, hl.2, hr, ?_⟩
          intro s hs
          exact hpre s (by simp [hs])

theorem check_ism_eq_none_iff (l : List IsmBand) (f : Rat) :
    check_ism_band l f = none ↔ ∀ b ∈ l, ¬ ismContainsCl b f := by
  induction l with
  | nil => simp [check_ism_band]
  | cons a t ih =>
    by_cases h : ismContainsCl a f
    · simp only [check_ism_band]
      rw [if_pos h]
      constructor
      · intro he; cases he
      · intro hall
        exact absurd h (hall a (List.mem_cons_self a t))
    · simp only [check_ism_band]
      rw [if_neg h]
      rw [ih]
      constructor
      · intro hall b hb
        rcases List.mem_cons.mp hb with h1 | h2
        · rw [h1]; exact h
        · exact hall b h2
      · intro hall b hb
        exact hall b (List.mem_cons_of_mem a hb)

theorem check_ism_eq_some_iff (l : List IsmBand) (f : Rat) (b : IsmBand) :
    check_ism_band l f = some b ↔
      ∃ pre post, l = pre ++ b :: post ∧ ismContainsCl b f ∧
        ∀ s ∈ pre, ¬ ismContainsCl s f := by
  induction l with
  | nil =>
    simp only [check_ism_band]
    constructor
    · intro h; cases h
    · rintro ⟨pre, post, h, -, -⟩
      cases pre <;> simp at h
  | cons a t ih =>
    by_cases h : ismContainsCl a f
    · simp only [check_ism_band]
      rw [if_pos h]
      constructor
      · intro he
        injection he with he
        subst he
        exact ⟨[], t, rfl, h, by simp⟩
      · rintro ⟨pre, post, hl, hr, hpre⟩
        cases pre with
        | nil =>
          simp only [List.nil_append, List.cons.injEq] at hl
          rw [hl.1]
        | cons c pre' =>
          simp only [List.cons_append, List.cons.injEq] at hl
          exact absurd (hl.1 ▸ h) (hpre c (by simp))
    · simp only [check_ism_band]
      rw [if_neg h]
      rw [ih]
      constructor
      · rintro ⟨pre, post, hl, hr, hpre⟩
        refine ⟨a :: pre, post, by rw [hl, List.cons_append], hr, ?_⟩
        intro s hs
        rcases List.mem_cons.mp hs with h1 | h2
        · rw [h1]; exact h
        · exact hpre s h2
      · rintro ⟨pre, post, hl, hr, hpre⟩
        cases pre with
        | nil =>
          simp only [List.nil_append, List.cons.injEq] at hl
          exact absurd (hl.1 ▸ hr) h
        | cons c pre' =>
          simp only [List.cons_append, List.cons.injEq] at hl
          refine ⟨pre', post, hl.2, hr, ?_⟩
          intro s hs
          exact hpre s (by simp [hs])

/-- Claim C6: the closed-interval classifiers `check_restricted_band` and
`check_ism_band` return the first record in table order whose closed
interval (`freq_min_mhz <= f <= freq_max_mhz`, resp. the effective
`range_mhz` pair) contains `f`, and `none` when no record matches; a
frequency equal to a band's upper endpoint is a match. -/
theorem c6_closed_band_matchers (bands : List RestrictedBand)
    (ism : List IsmBand) (f : Rat) :
    (check_restricted_band bands f = none ↔ ∀ b ∈ bands, ¬ containsCl b f)
    ∧ (∀ b, check_restricted_band bands f = some b ↔
      ∃ pre post, bands = pre ++ b :: post ∧ containsCl b f ∧
        ∀ s ∈ pre, ¬ containsCl s f)
    ∧ (check_ism_band ism f = none ↔ ∀ b ∈ ism, ¬ ismContainsCl b f)
    ∧ (∀ b, check_ism_band ism f = some b ↔
      ∃ pre post, ism = pre ++ b :: post ∧ ismContainsCl b f ∧
        ∀ s ∈ pre, ¬ ismContainsCl s f)
    ∧ (∀ b ∈ bands, b.freq_min_mhz ≤ b.freq_max_mhz →
      (check_restricted_band bands b.freq_max_mhz).isSome = true) := by
  refine ⟨check_restricted_eq_none_iff bands f,
    fun b => check_restricted_eq_some_iff bands f b,
    check_ism_eq_none_iff ism f,
    fun b => check_ism_eq_some_iff ism f b, ?_⟩
  intro b hb hle
  rcases hfind : check_restricted_band bands b.freq_max_mhz with _ | b'
  · exact absurd ⟨hle, le_refl _⟩
      ((check_restricted_eq_none_iff bands b.freq_max_mhz).mp hfind b hb)
  · rfl

theorem c6_closed_band_matchers_witness :
    (check_restricted_band demoRestrictedBands 928).isSome = true :=
  (c6_closed_band_matchers demoRestrictedBands [] 0).2.2.2.2
    { freq_min_mhz := 902, freq_max_mhz := 928, service := "Amateur/ISM" }
    (by decide) (by decide)

/-- Claim C2: in a CISPR radiated lookup whose primary table has no match,
the `above_1ghz` sub-table supplies the result exactly when it is present
and `f >= 1000`; below 1000 MHz the lookup reports "not found" even when
the sub-table would cover `f`. -/
theorem c2_cispr_fallback (cispr : CisprStore) (standard device_class : String)
    (f : Rat) (dataV : StandardData) (cd : ClassData)
    (hstd : cisprSelectStd cispr (pyLower standard) = some dataV)
    (hcd : cisprClassData dataV (pyLower device_class) = some cd)
    (hmiss : find_limit_for_frequency cd.radiated_emissions.limits f = none) :
    (∀ ag, cd.radiated_emissions.above_1ghz = some ag → 1000 ≤ f →
      get_cispr_limit cispr standard device_class f "radiated" =
        cisprHeader (pyLower standard) (pyLower device_class) f ++
          (match find_limit_for_frequency ag.limits f with
           | some limit =>
             "Radiated Emissions >1GHz (@ " ++ optStr ag.measurement_distance_m ++
               "m):\n" ++ format_limit_result limit
           | none => ""))
    ∧ (f < 1000 →
      get_cispr_limit cispr standard device_class f "radiated" =
        cisprHeader (pyLower standard) (pyLower device_class) f ++
          "No radiated limit found for this frequency") := by
  have hbase : get_cispr_limit cispr standard device_class f "radiated" =
      cisprHeader (pyLower standard) (pyLower device_class) f ++
        cisprRadiatedPart cd f := by
    simp [get_cispr_limit, hstd, hcd]
  constructor
  · intro ag hag hge
    rw [hbase]
    simp only [cisprRadiatedPart, hmiss, hag]
    rw [if_pos hge]
  · intro hlt
    rw [hbase]
    simp only [cisprRadiatedPart, hmiss]
    rcases hag : cd.radiated_emissions.above_1ghz with _ | ag
    · simp [hag]
    · simp only [hag]
      rw [if_neg (not_le.mpr hlt)]

theorem c2_cispr_fallback_witness :
    get_cispr_limit demoCisprStore "CISPR 32" "B" 500 "radiated" =
      cisprHeader (pyLower ("CISPR 32")) (pyLower ("B")) 500 ++
        "No radiated limit found for this frequency" :=
  (c2_cispr_fallback demoCisprStore "CISPR 32" "B" 500 demoCisprStore.cispr_32
    { radiated_emissions := demoRadData }
    (by decide) (by decide) (by decide)).2 (by decide)

/-- Claim C3: for `frequency_mhz > 30` the `fcc_part15_limit` output is
assembled without the Section 15.207 conducted block, whatever section
filter was requested. -/
theorem c3_sec207_suppressed_above_30 (store : Store) (f : Rat)
    (sectionArg device_class : String) (hf : 30 < f) :
    fccPart15Text store f sectionArg device_class =
      String.intercalate ("\n")
        (["FCC Part 15 Limits at " ++ toString f ++ " MHz\n" ++ repeatChar '=' 40]
         ++ (if sectionArg = "15.109" ∨ sectionArg = "all" then
               sec109Block store.part15 f device_class
             else [])
         ++ (if sectionArg = "15.209" ∨ sectionArg = "all" then
               sec209Block store.part15 f
             else [])
         ++ restrictedWarnBlock store.restricted_bands f) := by
  have h30 : ¬ ((sectionArg = "15.207" ∨ sectionArg = "all") ∧ f ≤ 30) := by
    rintro ⟨-, hle⟩
    exact absurd hf (not_lt.mpr hle)
  unfold fccPart15Text
  rw [if_neg h30]
  simp

theorem c3_sec207_suppressed_above_30_witness :
    fccPart15Text {} 100 "all" "both" =
      String.intercalate ("\n")
        (["FCC Part 15 Limits at " ++ toString (100 : Rat) ++ " MHz\n" ++
            repeatChar '=' 40]
         ++ (if ("all" : String) = "15.109" ∨ ("all" : String) = "all" then
               sec109Block ({} : Store).part15 100 "both"
             else [])
         ++ (if ("all" : String) = "15.209" ∨ ("all" : String) = "all" then
               sec209Block ({} : Store).part15 100
             else [])
         ++ restrictedWarnBlock ({} : Store).restricted_bands 100) :=
  c3_sec207_suppressed_above_30 {} 100 "all" "both" (by decide)

set_option maxRecDepth 10000 in
/-- Claim C5 counterexample: at 100 MHz on an empty store every requested
`fcc_part15_limit` lookup matches nothing, the operation returns text, yet
that text contains no explicit not-found rendering (not even the word
"found") — absence is rendered by omitting the per-class blocks. -/
theorem c5_counterexample :
    find_limit_for_frequency (({} : Store).part15.section_15_109.class_a.limits) 100 = none
    ∧ find_limit_for_frequency (({} : Store).part15.section_15_109.class_b.limits) 100 = none
    ∧ find_limit_for_frequency (({} : Store).part15.section_15_209.limits) 100 = none
    ∧ fccPart15Text {} 100 "all" "both" =
        "FCC Part 15 Limits at 100 MHz\n" ++ repeatChar '=' 40 ++
          "\n\n## Section 15.109 - Radiated Emission Limits" ++
          "\n\n## Section 15.209 - Intentional Radiators"
    ∧ strContains (fccPart15Text {} 100 "all" "both") ("found") = false
    ∧ strContains (fccPart15Text {} 100 "all" "both") ("No limit") = false := by
  refine ⟨rfl, rfl, rfl, by decide, by decide, by decide⟩

/-- Claim C5, amended: a query that matches nothing is not an error — the
`fcc_part15_limit` and `cispr_limit` dispatch branches return text
whenever their required arguments are present — and the explicit
not-found renderings are: the CISPR radiated text when the above-1-GHz
fallback is not consulted (`f < 1000` or no fallback table), the CISPR
conducted text, the restricted-band CLEAR text, the LTE and NR lookup
not-found texts, and the reverse-lookup not-found line; by contrast
`fcc_part15_limit` renders a missing match by omitting the per-class
block, and a CISPR radiated lookup whose consulted fallback also misses
appends no message at all. -/
theorem c5_notfound_amended (store : Store) (f : Rat) :
    (∀ (args : Args) (r : HttpOutcome), args.frequency_mhz.isSome = true →
      (callTool store "fcc_part15_limit" args r).isSome = true)
    ∧ (∀ (args : Args) (r : HttpOutcome), args.frequency_mhz.isSome = true →
      args.standard.isSome = true →
      (callTool store "cispr_limit" args r).isSome = true)
    ∧ (∀ cd : ClassData,
      find_limit_for_frequency cd.radiated_emissions.limits f = none →
      (f < 1000 ∨ cd.radiated_emissions.above_1ghz = none) →
      cisprRadiatedPart cd f = "No radiated limit found for this frequency")
    ∧ (∀ (cd : ClassData) (ag : Above1G),
      find_limit_for_frequency cd.radiated_emissions.limits f = none →
      cd.radiated_emissions.above_1ghz = some ag → 1000 ≤ f →
      find_limit_for_frequency ag.limits f = none →
      cisprRadiatedPart cd f = "")
    ∧ (∀ cd : ClassData,
      find_limit_for_frequency cd.conducted_emissions.limits f = none →
      cisprConductedPart cd f = "No conducted limit found for this frequency")
    ∧ (check_restricted_band store.restricted_bands f = none →
      fccRestrictedText store f =
        "✓ CLEAR\n\nFrequency " ++ toString f ++ " MHz is NOT in a restricted band.")
    ∧ (∀ n : Int, find_lte_band store.lte.bands n = none →
      lteBandLookupText store.lte n =
        "LTE Band " ++ toString n ++ " not found in database.")
    ∧ (∀ nm : String, find_nr_band store.nr nm = none →
      nrBandLookupText store.nr nm =
        some ("NR Band ’" ++ nm ++ "’ not found. Use format ’n77’, ’n260’, etc."))
    ∧ (freqToBandFound store f = [] →
      frequencyToBandText store f =
        "Bands containing " ++ toString f ++ " MHz\n" ++ repeatChar '=' 40 ++
          "\n\n" ++ "  No LTE/NR bands found for this frequency.\n" ++
          (match check_ism_band store.part18.ism_bands f with
           | some ism => "\n  ISM Band: " ++ toString ism.center_mhz ++ " MHz center\n"
           | none => "")) := by
  refine ⟨?_, ?_, ?_, ?_, ?_, ?_, ?_, ?_, ?_⟩
  · intro args r h
    obtain ⟨v, hv⟩ := Option.isSome_iff_exists.mp h
    have hred : callTool store "fcc_part15_limit" args r =
        (do
          let freq_mhz ← args.frequency_mhz
          pure (fccPart15Text store freq_mhz (args.sectionArg.getD ("all"))
            (args.device_class.getD ("both")))) := rfl
    rw [hred, hv]
    rfl
  · intro args r h hstdp
    obtain ⟨v, hv⟩ := Option.isSome_iff_exists.mp h
    obtain ⟨sv, hsv⟩ := Option.isSome_iff_exists.mp hstdp
    have hred : callTool store "cispr_limit" args r =
        (do
          let freq_mhz ← args.frequency_mhz
          let standard ← args.standard
          pure (get_cispr_limit store.cispr standard (args.device_class.getD ("B"))
            freq_mhz (args.emission_type.getD ("radiated")))) := rfl
    rw [hred, hv, hsv]
    rfl
  · intro cd hmiss hcase
    simp only [cisprRadiatedPart, hmiss]
    rcases hcase with hlt | hnone
    · rcases hag : cd.radiated_emissions.above_1ghz with _ | ag
      · simp [hag]
      · simp only [hag]
        rw [if_neg (not_le.mpr hlt)]
    · simp [hnone]
  · intro cd ag hmiss hag hge hagmiss
    simp only [cisprRadiatedPart, hmiss, hag]
    rw [if_pos hge]
    simp [hagmiss]
  · intro cd hmiss
    simp [cisprConductedPart, hmiss]
  · intro h
    simp [fccRestrictedText, h]
  · intro n h
    simp [lteBandLookupText, h]
  · intro nm h
    simp [nrBandLookupText, h]
  · intro h
    simp [frequencyToBandText, h]

theorem c5_notfound_amended_witness :
    cisprRadiatedPart {} 5 = "No radiated limit found for this frequency" :=
  (c5_notfound_amended {} 5).2.2.1 {} rfl (Or.inl (by decide))

theorem str_append_eq_empty_left (a b : String) (h : a ++ b = "") : a = "" := by
  have hd := congrArg String.data h
  rw [String.data_append] at hd
  exact String.ext (by simpa using (List.append_eq_nil.mp hd).1)

theorem emcNoteStr_ne_empty (l c : LimitRec) (v : Rat)
    (hv : c.limit_dbuv_m = some v) :
    emcNoteStr (some l) (some c) ≠ "" := by
  simp only [emcNoteStr, hv]
  intro he
  have h1 := str_append_eq_empty_left _ _ he
  have h2 := str_append_eq_empty_left _ _ h1
  have h3 := str_append_eq_empty_left _ _ h2
  have h4 := str_append_eq_empty_left _ _ h3
  exact absurd h4 (by decide)

/-- Claim C4: under the documented field shape of matched records, the
`emc_compare_limits` output is the base header, the FCC block, the CISPR
block and the distance-correction note, where the note is non-empty iff
both lookups matched and, when both match, reports the CISPR
`limit_dbuv_m` plus the fixed constant 10.5. -/
theorem c4_compare_note (store : Store) (f : Rat) (dc0 : String)
    (hfcc : ∀ l, emcFccFind store.part15 f (pyLower (pyUpper dc0)) = some l →
      l.limit_dbuv_m.isSome = true ∧ l.distance_m.isSome = true)
    (hci : ∀ c, emcCisprFind store.cispr f (pyLower (pyUpper dc0)) = some c →
      c.limit_dbuv_m.isSome = true) :
    emcCompareText store f dc0 =
      some (emcBaseStr f (pyUpper dc0) ++
        emcFccStr (pyUpper dc0) (emcFccFind store.part15 f (pyLower (pyUpper dc0))) ++
        emcCisprStr (pyUpper dc0) (emcCisprRad store.cispr (pyLower (pyUpper dc0)))
          (emcCisprFind store.cispr f (pyLower (pyUpper dc0))) ++
        emcNoteStr (emcFccFind store.part15 f (pyLower (pyUpper dc0)))
          (emcCisprFind store.cispr f (pyLower (pyUpper dc0))))
    ∧ (emcNoteStr (emcFccFind store.part15 f (pyLower (pyUpper dc0)))
          (emcCisprFind store.cispr f (pyLower (pyUpper dc0))) = "" ↔
        ¬((emcFccFind store.part15 f (pyLower (pyUpper dc0))).isSome = true
          ∧ (emcCisprFind store.cispr f (pyLower (pyUpper dc0))).isSome = true))
    ∧ (∀ c v, emcCisprFind store.cispr f (pyLower (pyUpper dc0)) = some c →
        c.limit_dbuv_m = some v →
        (emcFccFind store.part15 f (pyLower (pyUpper dc0))).isSome = true →
        emcNoteStr (emcFccFind store.part15 f (pyLower (pyUpper dc0)))
            (emcCisprFind store.cispr f (pyLower (pyUpper dc0))) =
          "Note: FCC uses 3m, CISPR uses 10m measurement distance.\n" ++
          "Distance correction: +10.5 dB to convert 10m→3m limits.\n" ++
          "CISPR 32 at 3m (calculated): " ++ fmtFixed (v + 10.5) 1 ++
          " dBuV/m\n") := by
  refine ⟨?_, ?_, ?_⟩
  · rcases hf : emcFccFind store.part15 f (pyLower (pyUpper dc0)) with _ | l <;>
      rcases hc : emcCisprFind store.cispr f (pyLower (pyUpper dc0)) with _ | c
    · simp [emcCompareText, emcBaseStr, hf, hc, emcFccStr, emcCisprStr, emcNoteStr]
    · obtain ⟨v2, hv2⟩ := Option.isSome_iff_exists.mp (hci c hc)
      simp [emcCompareText, emcBaseStr, hf, hc, hv2, emcFccStr, emcCisprStr, emcNoteStr]
    · obtain ⟨hl1, hl2⟩ := hfcc l hf
      obtain ⟨v1, hv1⟩ := Option.isSome_iff_exists.mp hl1
      obtain ⟨d1, hd1⟩ := Option.isSome_iff_exists.mp hl2
      simp [emcCompareText, emcBaseStr, hf, hc, hv1, hd1, emcFccStr, emcCisprStr, emcNoteStr]
    · obtain ⟨hl1, hl2⟩ := hfcc l hf
      obtain ⟨v1, hv1⟩ := Option.isSome_iff_exists.mp hl1
      obtain ⟨d1, hd1⟩ := Option.isSome_iff_exists.mp hl2
      obtain ⟨v2, hv2⟩ := Option.isSome_iff_exists.mp (hci c hc)
      simp [emcCompareText, emcBaseStr, hf, hc, hv1, hd1, hv2, emcFccStr,
        emcCisprStr, emcNoteStr]
  · rcases hf : emcFccFind store.part15 f (pyLower (pyUpper dc0)) with _ | l <;>
      rcases hc : emcCisprFind store.cispr f (pyLower (pyUpper dc0)) with _ | c
    · simp [emcNoteStr]
    · simp [emcNoteStr]
    · simp [emcNoteStr]
    · obtain ⟨v2, hv2⟩ := Option.isSome_iff_exists.mp (hci c hc)
      constructor
      · intro h
        exact absurd h (emcNoteStr_ne_empty l c v2 hv2)
      · intro h
        exact absurd ⟨rfl, rfl⟩ h
  · intro c v hc hv hfs
    obtain ⟨l, hl⟩ := Option.isSome_iff_exists.mp hfs
    simp [emcNoteStr, hl, hc, hv]

theorem c4_compare_note_witness :
    emcNoteStr (emcFccFind demoStoreC4.part15 50 (pyLower (pyUpper ("B"))))
        (emcCisprFind demoStoreC4.cispr 50 (pyLower (pyUpper ("B")))) = "" ↔
      ¬((emcFccFind demoStoreC4.part15 50 (pyLower (pyUpper ("B")))).isSome = true
        ∧ (emcCisprFind demoStoreC4.cispr 50 (pyLower (pyUpper ("B")))).isSome = true) :=
  (c4_compare_note demoStoreC4 50 "B"
    (by
      intro l hl
      rw [show emcFccFind demoStoreC4.part15 50 (pyLower (pyUpper ("B"))) =
          some { freq_min_mhz := 30, freq_max_mhz := 88,
                 limit_dbuv_m := some 40, distance_m := some 3 } from by decide] at hl
      injection hl with h
      rw [← h]
      exact ⟨rfl, rfl⟩)
    (by
      intro c hc
      rw [show emcCisprFind demoStoreC4.cispr 50 (pyLower (pyUpper ("B"))) =
          some { freq_min_mhz := 30, freq_max_mhz := 230,
                 limit_dbuv_m := some 30 } from by decide] at hc
      injection hc with h
      rw [← h]
      rfl)).2.1

/-- Claim C10: the `emc_compare_limits` branch returns text (does not
raise) iff every record it matches carries the unconditionally indexed
fields — `limit_dbuv_m` and `distance_m` on the FCC side, `limit_dbuv_m`
on the CISPR side; a matched record lacking one makes it raise. -/
theorem c10_emc_field_indexing (store : Store) (f : Rat) (dc0 : String) :
    (emcCompareText store f dc0).isSome = true ↔
      ((∀ l, emcFccFind store.part15 f (pyLower (pyUpper dc0)) = some l →
          l.limit_dbuv_m.isSome = true ∧ l.distance_m.isSome = true)
       ∧ (∀ c, emcCisprFind store.cispr f (pyLower (pyUpper dc0)) = some c →
          c.limit_dbuv_m.isSome = true)) := by
  rcases hf : emcFccFind store.part15 f (pyLower (pyUpper dc0)) with _ | l <;>
    rcases hc : emcCisprFind store.cispr f (pyLower (pyUpper dc0)) with _ | c
  · simp [emcCompareText, hf, hc]
  · rcases hcv : c.limit_dbuv_m with _ | v <;>
      simp [emcCompareText, hf, hc, hcv]
  · rcases hlv : l.limit_dbuv_m with _ | v <;>
      rcases hld : l.distance_m with _ | d <;>
      simp [emcCompareText, hf, hc, hlv, hld]
  · rcases hlv : l.limit_dbuv_m with _ | v <;>
      rcases hld : l.distance_m with _ | d <;>
      rcases hcv : c.limit_dbuv_m with _ | w <;>
      simp [emcCompareText, hf, hc, hlv, hld, hcv]

set_option maxHeartbeats 2000000 in
/-- Claim C7 counterexample: with identical name, arguments and store, two
`ecfr_query` invocations whose outbound requests end differently produce
different output text — the dispatch is not a function of (name,
arguments, store) alone. -/
theorem c7_counterexample :
    callTool {} "ecfr_query" { title := some 47, part := some 15 }
        (HttpOutcome.exn "timeout") ≠
      callTool {} "ecfr_query" { title := some 47, part := some 15 }
        (HttpOutcome.exn "connect failure") := by decide

set_option maxHeartbeats 4000000 in
/-- Claim C7, amended: every operation except `ecfr_query` is a
deterministic function of the name, the arguments and the immutable
store — the outcome of the outbound request cannot influence it; and
`ecfr_query` is deterministic once that outcome is fixed. -/
theorem c7_deterministic_modulo_http (store : Store) (name : String)
    (args : Args) (r1 r2 : HttpOutcome) (h : name ≠ "ecfr_query") :
    callTool store name args r1 = callTool store name args r2 := by
  unfold callTool
  by_cases h1 : name = "fcc_part15_limit"
  · rw [if_pos h1, if_pos h1]
  rw [if_neg h1, if_neg h1]
  by_cases h2 : name = "fcc_part18_limit"
  · rw [if_pos h2, if_pos h2]
  rw [if_neg h2, if_neg h2]
  by_cases h3 : name = "fcc_restricted_bands"
  · rw [if_pos h3, if_pos h3]
  rw [if_neg h3, if_neg h3]
  by_cases h4 : name = "fcc_restricted_bands_list"
  · rw [if_pos h4, if_pos h4]
  rw [if_neg h4, if_neg h4]
  by_cases h5 : name = "ism_bands_list"
  · rw [if_pos h5, if_pos h5]
  rw [if_neg h5, if_neg h5]
  by_cases h6 : name = "cispr_limit"
  · rw [if_pos h6, if_pos h6]
  rw [if_neg h6, if_neg h6]
  by_cases h7 : name = "emc_compare_limits"
  · rw [if_pos h7, if_pos h7]
  rw [if_neg h7, if_neg h7]
  by_cases h8 : name = "lte_band_lookup"
  · rw [if_pos h8, if_pos h8]
  rw [if_neg h8, if_neg h8]
  by_cases h9 : name = "lte_bands_list"
  · rw [if_pos h9, if_pos h9]
  rw [if_neg h9, if_neg h9]
  by_cases h10 : name = "nr_band_lookup"
  · rw [if_pos h10, if_pos h10]
  rw [if_neg h10, if_neg h10]
  by_cases h11 : name = "nr_bands_list"
  · rw [if_pos h11, if_pos h11]
  rw [if_neg h11, if_neg h11]
  by_cases h12 : name = "frequency_to_band"
  · rw [if_pos h12, if_pos h12]
  rw [if_neg h12, if_neg h12]
  by_cases h13 : name = "emc_standards_list"
  · rw [if_pos h13, if_pos h13]
  rw [if_neg h13, if_neg h13]
  rw [if_neg h, if_neg h]

theorem c7_deterministic_modulo_http_witness :
    callTool {} "cispr_limit" {} (HttpOutcome.exn "a") =
      callTool {} "cispr_limit" {} (HttpOutcome.exn "b") :=
  c7_deterministic_modulo_http {} "cispr_limit" {} (HttpOutcome.exn "a")
    (HttpOutcome.exn "b") (by decide)

set_option maxRecDepth 10000 in
/-- Claim C8 counterexample: a 9000-character payload is truncated to
exactly 8000 characters and the output ends there — no truncation notice
is appended after the truncated payload. -/
theorem c8_counterexample :
    ecfrText 47 15 none (HttpOutcome.ok 200 bigDump) =
      "eCFR Query: Title 47, Part 15" ++ "\n" ++ repeatChar '=' 50 ++ "\n\n" ++
        String.mk (List.replicate 8000 'a')
    ∧ (ecfrText 47 15 none (HttpOutcome.ok 200 bigDump)).length =
        ("eCFR Query: Title 47, Part 15" ++ "\n" ++ repeatChar '=' 50 ++
          "\n\n").length + 8000 := by
  have htake : pySlice bigDump 8000 = String.mk (List.replicate 8000 'a') := by
    show String.mk ((List.replicate 9000 'a').take 8000) = _
    rw [List.take_replicate]
    have hmin : (8000 : Nat) ⊓ 9000 = 8000 := by decide
    rw [hmin]
  have hhdr : ("eCFR Query: Title " ++ toString (47 : Int) ++ ", Part " ++
      toString (15 : Int) ++
      (match (none : Option String) with
       | some s => ", Section " ++ s
       | none => "") ++
      "\n" ++ repeatChar '=' 50 ++ "\n\n") =
      ("eCFR Query: Title 47, Part 15" ++ "\n" ++ repeatChar '=' 50 ++ "\n\n") := by
    decide
  have h1 : ecfrText 47 15 none (HttpOutcome.ok 200 bigDump) =
      ("eCFR Query: Title 47, Part 15" ++ "\n" ++ repeatChar '=' 50 ++ "\n\n") ++
        String.mk (List.replicate 8000 'a') := by
    calc ecfrText 47 15 none (HttpOutcome.ok 200 bigDump)
        = ("eCFR Query: Title " ++ toString (47 : Int) ++ ", Part " ++
            toString (15 : Int) ++
            (match (none : Option String) with
             | some s => ", Section " ++ s
             | none => "") ++
            "\n" ++ repeatChar '=' 50 ++ "\n\n") ++ pySlice bigDump 8000 := rfl
      _ = ("eCFR Query: Title 47, Part 15" ++ "\n" ++ repeatChar '=' 50 ++ "\n\n") ++
            String.mk (List.replicate 8000 'a') := by rw [htake, hhdr]
  refine ⟨h1, ?_⟩
  rw [h1]
  show (("eCFR Query: Title 47, Part 15" ++ "\n" ++ repeatChar '=' 50 ++
      "\n\n").data ++ (String.mk (List.replicate 8000 'a')).data).length =
    ("eCFR Query: Title 47, Part 15" ++ "\n" ++ repeatChar '=' 50 ++
      "\n\n").data.length + 8000
  rw [List.length_append]
  have hrep : (String.mk (List.replicate 8000 'a')).data.length = 8000 := by
    show (List.replicate 8000 'a').length = 8000
    rw [List.length_replicate]
  rw [hrep]

/-- Claim C8, amended: on an HTTP 200 response the `ecfr_query` output is
the query header followed by the pretty-printed payload truncated to the
fixed 8000-character budget; no truncation notice is appended. -/
theorem c8_truncation_no_notice (title part : Int) (sectionArg : Option String)
    (dump : String) :
    ecfrText title part sectionArg (HttpOutcome.ok 200 dump) =
      "eCFR Query: Title " ++ toString title ++ ", Part " ++ toString part ++
        (match sectionArg with
         | some s => ", Section " ++ s
         | none => "") ++
        "\n" ++ repeatChar '=' 50 ++ "\n\n" ++ pySlice dump 8000
    ∧ (pySlice dump 8000).length = min 8000 dump.length := by
  constructor
  · simp [ecfrText]
  · show (dump.toList.take 8000).length = min 8000 dump.length
    rw [List.length_take]
    rfl

/-- Claim C9: given well-formed arguments, the `ecfr_query` branch
resolves to text for every outcome of the outbound request, and every
exception inside the `try` block becomes the descriptive error string. -/
theorem c9_ecfr_never_raises (store : Store) (args : Args)
    (resp : HttpOutcome) (ht : args.title.isSome = true)
    (hp : args.part.isSome = true) :
    (∃ s, callTool store "ecfr_query" args resp = some s)
    ∧ (∀ e, resp = HttpOutcome.exn e →
      callTool store "ecfr_query" args resp =
        some ("Error querying eCFR API: " ++ e)) := by
  obtain ⟨t, htv⟩ := Option.isSome_iff_exists.mp ht
  obtain ⟨p, hpv⟩ := Option.isSome_iff_exists.mp hp
  have hred : callTool store "ecfr_query" args resp =
      (do
        let title ← args.title
        let part ← args.part
        pure (ecfrText title part args.sectionArg resp)) := rfl
  constructor
  · exact ⟨ecfrText t p args.sectionArg resp, by rw [hred, htv, hpv]; rfl⟩
  · intro e he
    subst he
    rw [hred, htv, hpv]
    rfl

theorem c9_ecfr_never_raises_witness :
    callTool {} "ecfr_query" { title := some 47, part := some 15 }
        (HttpOutcome.exn "boom") =
      some ("Error querying eCFR API: " ++ "boom") :=
  (c9_ecfr_never_raises {} { title := some 47, part := some 15 }
    (HttpOutcome.exn "boom") rfl rfl).2 "boom" rfl
